import Mathlib

/-!
Shallow embedding of the zaifer-mcp repository (Zaif exchange MCP gateway):
the JSON-like wire values exchanged with the API, the `decimal.Decimal`
values used by the data model, the normalizer conversions in
`zaifer_mcp/models/*.py`, the nonce generator / request signer / HTTP
client in `zaifer_mcp/api/client.py`, and the tool handlers in
`zaifer_mcp/tools/trade.py`.
-/

/-- Python values flowing through the JSON layer: strings, ints, dicts
(modelled as insertion-ordered association lists, keys unique), lists and
`None`.  Floats never reach the normalizers in the verified paths. -/

inductive PyVal : Type where
  | str (s : String)
  | int (n : Int)
  | dict (entries : List (String × PyVal))
  | list (elems : List PyVal)
  | none

mutual

/-- Decidable equality on `PyVal` (the derive handler does not support the
nested occurrences, so it is spelled out). -/
def PyVal.decEq : (a b : PyVal) → Decidable (a = b)
  | .str s, .str t =>
      if h : s = t then isTrue (by rw [h])
      else isFalse (by intro hh; cases hh; exact h rfl)
  | .int m, .int n =>
      if h : m = n then isTrue (by rw [h])
      else isFalse (by intro hh; cases hh; exact h rfl)
  | .dict es, .dict fs =>
      match PyVal.decEqEntries es fs with
      | isTrue h => isTrue (by rw [h])
      | isFalse h => isFalse (by intro hh; cases hh; exact h rfl)
  | .list xs, .list ys =>
      match PyVal.decEqList xs ys with
      | isTrue h => isTrue (by rw [h])
      | isFalse h => isFalse (by intro hh; cases hh; exact h rfl)
  | .none, .none => isTrue rfl
  | .str _, .int _ => isFalse (fun h => PyVal.noConfusion h)
  | .str _, .dict _ => isFalse (fun h => PyVal.noConfusion h)
  | .str _, .list _ => isFalse (fun h => PyVal.noConfusion h)
  | .str _, .none => isFalse (fun h => PyVal.noConfusion h)
  | .int _, .str _ => isFalse (fun h => PyVal.noConfusion h)
  | .int _, .dict _ => isFalse (fun h => PyVal.noConfusion h)
  | .int _, .list _ => isFalse (fun h => PyVal.noConfusion h)
  | .int _, .none => isFalse (fun h => PyVal.noConfusion h)
  | .dict _, .str _ => isFalse (fun h => PyVal.noConfusion h)
  | .dict _, .int _ => isFalse (fun h => PyVal.noConfusion h)
  | .dict _, .list _ => isFalse (fun h => PyVal.noConfusion h)
  | .dict _, .none => isFalse (fun h => PyVal.noConfusion h)
  | .list _, .str _ => isFalse (fun h => PyVal.noConfusion h)
  | .list _, .int _ => isFalse (fun h => PyVal.noConfusion h)
  | .list _, .dict _ => isFalse (fun h => PyVal.noConfusion h)
  | .list _, .none => isFalse (fun h => PyVal.noConfusion h)
  | .none, .str _ => isFalse (fun h => PyVal.noConfusion h)
  | .none, .int _ => isFalse (fun h => PyVal.noConfusion h)
  | .none, .dict _ => isFalse (fun h => PyVal.noConfusion h)
  | .none, .list _ => isFalse (fun h => PyVal.noConfusion h)

/-- Decidable equality on dict entry lists. -/
def PyVal.decEqEntries : (a b : List (String × PyVal)) → Decidable (a = b)
  | [], [] => isTrue rfl
  | [], _ :: _ => isFalse (fun h => List.noConfusion h)
  | _ :: _, [] => isFalse (fun h => List.noConfusion h)
  | (k, v) :: as, (k', v') :: bs =>
      if h1 : k = k' then
        match PyVal.decEq v v', PyVal.decEqEntries as bs with
        | isTrue h2, isTrue h3 => isTrue (by rw [h1, h2, h3])
        | isFalse h2, _ => isFalse (by intro hh; cases hh; exact h2 rfl)
        | _, isFalse h3 => isFalse (by intro hh; cases hh; exact h3 rfl)
      else isFalse (by intro hh; cases hh; exact h1 rfl)

/-- Decidable equality on value lists. -/
def PyVal.decEqList : (a b : List PyVal) → Decidable (a = b)
  | [], [] => isTrue rfl
  | [], _ :: _ => isFalse (fun h => List.noConfusion h)
  | _ :: _, [] => isFalse (fun h => List.noConfusion h)
  | x :: xs, y :: ys =>
      match PyVal.decEq x y, PyVal.decEqList xs ys with
      | isTrue h1, isTrue h2 => isTrue (by rw [h1, h2])
      | isFalse h1, _ => isFalse (by intro hh; cases hh; exact h1 rfl)
      | _, isFalse h2 => isFalse (by intro hh; cases hh; exact h2 rfl)

end

instance : DecidableEq PyVal := PyVal.decEq

/-- The Python exceptions the embedded code can raise.
`apiError m` stands for the source's `ValueError("API error: " + m)`
raised on the envelope's failure path; `valueError m` for every other
`ValueError(m)`; `invalidOperation` for `decimal.InvalidOperation` (raised
by `Decimal` on a non-numeric string; it derives from `ArithmeticError`,
not `ValueError`); `keyError k` for `KeyError` on `data[k]`;
`typeError` for `TypeError`; `attributeError` for `AttributeError`. -/

inductive PyExc : Type where
  | valueError (msg : String)
  | apiError (msg : String)
  | invalidOperation
  | keyError (k : String)
  | typeError
  | attributeError

deriving DecidableEq

/-- Python dict lookup `d.get(k)` (keys are unique in a dict, so first
match suffices). -/

def dictGet : List (String × PyVal) → String → Option PyVal
  | [], _ => Option.none
  | (k', v) :: rest, k => if k' = k then some v else dictGet rest k

/-- Python dict lookup with default, `d.get(k, dflt)`. -/

def dictGetD (d : List (String × PyVal)) (k : String) (dflt : PyVal) : PyVal :=
  (dictGet d k).getD dflt

/-- Python dict item assignment `d[k] = v`: overwrites in place when the
key is present (keeping its position), appends otherwise. -/

def dictSet : List (String × PyVal) → String → PyVal → List (String × PyVal)
  | [], k, v => [(k, v)]
  | (k', v') :: rest, k, v =>
      if k' = k then (k, v) :: rest else (k', v') :: dictSet rest k v

/-- The decimal digit characters. -/

def digitChar : Nat → Char
  | 0 => '0'
  | 1 => '1'
  | 2 => '2'
  | 3 => '3'
  | 4 => '4'
  | 5 => '5'
  | 6 => '6'
  | 7 => '7'
  | 8 => '8'
  | 9 => '9'
  | _ => '*'

/-- Numeric value of a digit character. -/

def digitVal (c : Char) : Nat := c.toNat - '0'.toNat

/-- Decimal digit characters, most significant first, by fuel-bounded
division (structural recursion, so that concrete values reduce by `rfl`). -/

def natCharsAux : Nat → Nat → List Char
  | 0, _ => []
  | fuel + 1, n =>
      if n < 10 then [digitChar n]
      else natCharsAux fuel (n / 10) ++ [digitChar (n % 10)]

/-- Decimal digit characters of a natural number, most significant first
(`str(n)` for a non-negative Python int). -/

def natChars (n : Nat) : List Char := natCharsAux (n + 1) n

/-- `str(n)` for a Python int. -/

def intStr (n : Int) : String :=
  String.mk ((if n < 0 then ['-'] else []) ++ natChars n.natAbs)

/-- Parse a non-empty all-digit character list as a natural number. -/

def parseNatChars (l : List Char) : Option Nat :=
  if l.isEmpty then Option.none
  else if l.all Char.isDigit then
    some (l.foldl (fun a c => a * 10 + digitVal c) 0)
  else Option.none

/-- Zero-pad the decimal digits of `n` on the left to width `w`
(Python's `"{0:06d}".format(n)` for `w = 6`). -/

def padDigits (w : Nat) (n : Nat) : List Char :=
  List.replicate (w - (natChars n).length) '0' ++ natChars n

/-- Model of `decimal.Decimal`: the exact value `mantissa / 10 ^ scale`.
Equality of `Dec` is equality of the (mantissa, scale) representation,
which Python's `Decimal` also preserves through `str`/parse round-trips;
ordering (`decLt` below) is numeric, as in Python. `Decimal` values whose
canonical Python string uses exponent notation (adjusted exponent `> 0` or
`< -7`) fall outside the printed subset modelled here; no verified claim
involves them. -/

structure Dec where
  mantissa : Int
  scale : Nat

deriving DecidableEq

/-- Python's numeric `<` on `Decimal`, by cross-multiplying mantissas. -/

def decLt (a b : Dec) : Prop :=
  a.mantissa * 10 ^ b.scale < b.mantissa * 10 ^ a.scale

instance (a b : Dec) : Decidable (decLt a b) := by
  unfold decLt; infer_instance

/-- `str(d)` for a `Decimal` in the modelled fixed-point subset: optional
sign, integer digits, and — when the scale is positive — a dot followed by
exactly `scale` fraction digits. -/

def decPrint (d : Dec) : String :=
  let n := d.mantissa.natAbs
  let body :=
    if d.scale = 0 then natChars n
    else natChars (n / 10 ^ d.scale) ++ '.' :: padDigits d.scale (n % 10 ^ d.scale)
  String.mk ((if d.mantissa < 0 then ['-'] else []) ++ body)

/-- Split a character list at the first dot. -/

def splitDot : List Char → List Char × Option (List Char)
  | [] => ([], Option.none)
  | c :: rest =>
      if c = '.' then ([], some rest)
      else
        let (a, b) := splitDot rest
        (c :: a, b)

/-- Split an optional leading minus sign off a character list. -/

def splitSign (l : List Char) : Bool × List Char :=
  match l with
  | c :: rest => if c = '-' then (true, rest) else (false, l)
  | [] => (false, [])

/-- `Decimal(s)`: parse an optional leading minus sign, integer digits and
an optional dot-separated fraction part; `Option.none` models the
`decimal.InvalidOperation` raised on anything else (`Decimal("abc")`). -/

def decParse (s : String) : Option Dec :=
  let (neg, body) := splitSign s.toList
  match splitDot body with
  | (ip, Option.none) =>
      match parseNatChars ip with
      | some n => some ⟨if neg then -(n : Int) else (n : Int), 0⟩
      | Option.none => Option.none
  | (ip, some fp) =>
      match parseNatChars ip, parseNatChars fp with
      | some i, some f =>
          some ⟨if neg then -((i * 10 ^ fp.length + f : Nat) : Int)
                else ((i * 10 ^ fp.length + f : Nat) : Int), fp.length⟩
      | _, _ => Option.none

/-- `str(v)` for the Python values that reach a `Decimal(str(v))` or
f-string site: a string is itself, an int prints in decimal, `None` prints
as `"None"`; container `repr`s are abbreviated (they are never numeric, so
every use below only needs that they fail `decParse`). -/

def pyStr : PyVal → String
  | .str s => s
  | .int n => intStr n
  | .none => "None"
  | .dict _ => "dict(...)"
  | .list _ => "list(...)"

/-- `Decimal(str(v))`, the normalizers' standard decimal coercion:
`decimal.InvalidOperation` (not caught by the sources'
`except (ValueError, TypeError, KeyError)`) when the printed form is not
a plain signed decimal. -/

def pyDecimal (v : PyVal) : Except PyExc Dec :=
  match decParse (pyStr v) with
  | some d => Except.ok d
  | Option.none => Except.error PyExc.invalidOperation

/-- `int(v)`: identity on ints, digit-parsing on strings (`ValueError` on
a malformed string), `TypeError` on `None`, dicts and lists. -/

def pyInt : PyVal → Except PyExc Int
  | .int n => Except.ok n
  | .str s =>
      match s.toList with
      | '-' :: rest =>
          match parseNatChars rest with
          | some n => Except.ok (-(n : Int))
          | Option.none => Except.error (PyExc.valueError "invalid literal for int")
      | l =>
          match parseNatChars l with
          | some n => Except.ok (n : Int)
          | Option.none => Except.error (PyExc.valueError "invalid literal for int")
  | .none => Except.error PyExc.typeError
  | .dict _ => Except.error PyExc.typeError
  | .list _ => Except.error PyExc.typeError

deriving instance DecidableEq for Except

/-- `data[k]` on a Python dict: `KeyError` when the key is absent. -/

def dictGetItem (d : List (String × PyVal)) (k : String) : Except PyExc PyVal :=
  match dictGet d k with
  | some v => Except.ok v
  | Option.none => Except.error (PyExc.keyError k)

/-- `v.items()`: the entries of a dict, `AttributeError` on anything else. -/

def pyDictItems : PyVal → Except PyExc (List (String × PyVal))
  | .dict es => Except.ok es
  | _ => Except.error PyExc.attributeError

/-- Iterating `for item in v` where the normalizers expect a JSON array:
the elements of a list, `TypeError` on a non-iterable. -/

def pyListElems : PyVal → Except PyExc (List PyVal)
  | .list xs => Except.ok xs
  | _ => Except.error PyExc.typeError

/-- `v[i]` on a Python list: `IndexError` out of range, `TypeError` when
`v` is not indexable. -/

def pyIndex : PyVal → Nat → Except PyExc PyVal
  | .list xs, i =>
      match xs.get? i with
      | some v => Except.ok v
      | Option.none => Except.error (PyExc.valueError "IndexError")
  | _, _ => Except.error PyExc.typeError

/-- The dict comprehension `{k: Decimal(str(v)) for k, v in entries}`. -/

def mapValuesDecimal : List (String × PyVal) → Except PyExc (List (String × Dec))
  | [] => Except.ok []
  | (k, v) :: rest => do
      let d ← pyDecimal v
      let r ← mapValuesDecimal rest
      Except.ok ((k, d) :: r)

/-- Encoding direction of the same comprehension,
`{k: str(v) for k, v in balances.items()}`. -/

def encodeValuesDecimal (l : List (String × Dec)) : List (String × PyVal) :=
  l.map fun p => (p.1, PyVal.str (decPrint p.2))

/-- Ticker record, `zaifer_mcp/models/market.py`. -/

structure Ticker where
  last_price : Dec
  high_price : Dec
  low_price : Dec
  ask_price : Dec
  bid_price : Dec
  volume : Dec

deriving DecidableEq

/-- `Ticker.from_dict`: `Decimal(str(data['last']))` and friends. -/

def Ticker.from_dict (data : List (String × PyVal)) : Except PyExc Ticker := do
  let last ← dictGetItem data "last" >>= pyDecimal
  let high ← dictGetItem data "high" >>= pyDecimal
  let low ← dictGetItem data "low" >>= pyDecimal
  let ask ← dictGetItem data "ask" >>= pyDecimal
  let bid ← dictGetItem data "bid" >>= pyDecimal
  let volume ← dictGetItem data "volume" >>= pyDecimal
  Except.ok ⟨last, high, low, ask, bid, volume⟩

/-- `Ticker.to_dict`: `str` of each field under the wire keys. -/

def Ticker.to_dict (t : Ticker) : List (String × PyVal) :=
  [("last", .str (decPrint t.last_price)),
   ("high", .str (decPrint t.high_price)),
   ("low", .str (decPrint t.low_price)),
   ("ask", .str (decPrint t.ask_price)),
   ("bid", .str (decPrint t.bid_price)),
   ("volume", .str (decPrint t.volume))]

/-- Order-book entry, `zaifer_mcp/models/market.py`. -/

structure OrderBookItem where
  price : Dec
  quantity : Dec

deriving DecidableEq

/-- Order book, `zaifer_mcp/models/market.py`. -/

structure OrderBook where
  asks : List OrderBookItem
  bids : List OrderBookItem

deriving DecidableEq

/-- The comprehension
`[OrderBookItem(Decimal(str(item[0])), Decimal(str(item[1]))) for item in side]`. -/

def OrderBook.parseSide : List PyVal → Except PyExc (List OrderBookItem)
  | [] => Except.ok []
  | v :: rest => do
      let p ← pyIndex v 0 >>= pyDecimal
      let q ← pyIndex v 1 >>= pyDecimal
      let r ← OrderBook.parseSide rest
      Except.ok (⟨p, q⟩ :: r)

/-- `OrderBook.from_dict`. -/

def OrderBook.from_dict (data : List (String × PyVal)) : Except PyExc OrderBook := do
  let asksRaw ← pyListElems (dictGetD data "asks" (.list []))
  let asks ← OrderBook.parseSide asksRaw
  let bidsRaw ← pyListElems (dictGetD data "bids" (.list []))
  let bids ← OrderBook.parseSide bidsRaw
  Except.ok ⟨asks, bids⟩

/-- `OrderBook.to_dict`: each side as `[[str(price), str(quantity)], ...]`. -/

def OrderBook.to_dict (ob : OrderBook) : List (String × PyVal) :=
  [("asks", .list (ob.asks.map fun i =>
      .list [.str (decPrint i.price), .str (decPrint i.quantity)])),
   ("bids", .list (ob.bids.map fun i =>
      .list [.str (decPrint i.price), .str (decPrint i.quantity)]))]

/-- Currency-pair constraint record, `zaifer_mcp/models/market.py`.
`currency_pair` is stored exactly as it appears on the wire, hence `PyVal`. -/

structure CurrencyPair where
  currency_pair : PyVal
  min_quantity : Dec
  quantity_step : Dec
  min_price : Dec
  price_step : Dec
  price_precision : Int
  display_name : String

deriving DecidableEq

/-- `CurrencyPair.from_dict`: required (`data[...]`) wire keys
`item_japanese`, `aux_japanese`, `currency_pair`, `item_unit_min`,
`item_unit_step`, `aux_unit_min`, `aux_unit_step`, `aux_unit_point`,
in the source's evaluation order. -/

def CurrencyPair.from_dict (data : List (String × PyVal)) :
    Except PyExc CurrencyPair := do
  let base ← dictGetItem data "item_japanese"
  let quote ← dictGetItem data "aux_japanese"
  let display_name := pyStr base ++ "/" ++ pyStr quote
  let cp ← dictGetItem data "currency_pair"
  let minQ ← dictGetItem data "item_unit_min" >>= pyDecimal
  let stepQ ← dictGetItem data "item_unit_step" >>= pyDecimal
  let minP ← dictGetItem data "aux_unit_min" >>= pyDecimal
  let stepP ← dictGetItem data "aux_unit_step" >>= pyDecimal
  let prec ← dictGetItem data "aux_unit_point" >>= pyInt
  Except.ok ⟨cp, minQ, stepQ, minP, stepP, prec, display_name⟩

/-- `CurrencyPair.to_dict`: the LLM-facing keys (`min_quantity`, ...),
which are not the wire keys `from_dict` consumes. -/

def CurrencyPair.to_dict (c : CurrencyPair) : List (String × PyVal) :=
  [("currency_pair", c.currency_pair),
   ("min_quantity", .str (decPrint c.min_quantity)),
   ("quantity_step", .str (decPrint c.quantity_step)),
   ("min_price", .str (decPrint c.min_price)),
   ("price_step", .str (decPrint c.price_step)),
   ("price_precision", .int c.price_precision),
   ("display_name", .str c.display_name)]

/-- Order-placement response, `zaifer_mcp/models/trade.py`. -/

structure OrderResponse where
  filled_amount : Dec
  unfilled_amount : Dec
  order_id : Int
  balances : List (String × Dec)

deriving DecidableEq

/-- `OrderResponse.from_dict`, in the source's evaluation order (the
`funds` comprehension is built first). -/

def OrderResponse.from_dict (data : List (String × PyVal)) :
    Except PyExc OrderResponse := do
  let funds ← pyDictItems (dictGetD data "funds" (.dict []))
  let balances ← mapValuesDecimal funds
  let filled ← pyDecimal (dictGetD data "received" (.str "0"))
  let unfilled ← pyDecimal (dictGetD data "remains" (.str "0"))
  let order_id ← pyInt (dictGetD data "order_id" (.int 0))
  Except.ok ⟨filled, unfilled, order_id, balances⟩

/-- `OrderResponse.to_dict`. -/

def OrderResponse.to_dict (r : OrderResponse) : List (String × PyVal) :=
  [("received", .str (decPrint r.filled_amount)),
   ("remains", .str (decPrint r.unfilled_amount)),
   ("order_id", .int r.order_id),
   ("funds", .dict (encodeValuesDecimal r.balances))]

/-- Order-cancellation response, `zaifer_mcp/models/trade.py`. -/

structure CancelOrderResponse where
  order_id : Int
  balances : List (String × Dec)

deriving DecidableEq

/-- `CancelOrderResponse.from_dict`. -/

def CancelOrderResponse.from_dict (data : List (String × PyVal)) :
    Except PyExc CancelOrderResponse := do
  let funds ← pyDictItems (dictGetD data "funds" (.dict []))
  let balances ← mapValuesDecimal funds
  let order_id ← pyInt (dictGetD data "order_id" (.int 0))
  Except.ok ⟨order_id, balances⟩

/-- `CancelOrderResponse.to_dict`. -/

def CancelOrderResponse.to_dict (r : CancelOrderResponse) : List (String × PyVal) :=
  [("order_id", .int r.order_id),
   ("funds", .dict (encodeValuesDecimal r.balances))]

/-- Account balance record, `zaifer_mcp/models/account.py`.
`permissions` is `data.get('rights')` stored unchanged, hence `Option PyVal`. -/

structure AccountBalance where
  balances : List (String × Dec)
  permissions : Option PyVal

deriving DecidableEq

/-- `AccountBalance.from_dict`. -/

def AccountBalance.from_dict (data : List (String × PyVal)) :
    Except PyExc AccountBalance := do
  let funds ← pyDictItems (dictGetD data "funds" (.dict []))
  let balances ← mapValuesDecimal funds
  Except.ok ⟨balances, dictGet data "rights"⟩

/-- `AccountBalance.to_dict`: `rights` emitted only when permissions are
present. -/

def AccountBalance.to_dict (a : AccountBalance) : List (String × PyVal) :=
  ("funds", .dict (encodeValuesDecimal a.balances)) ::
    (match a.permissions with
     | some p => [("rights", p)]
     | Option.none => [])

/-- A single trade execution, `zaifer_mcp/models/trade.py`.
`currency_pair` is `item.get("currency_pair", "")` stored unchanged,
hence `PyVal`. -/

structure TradeExecution where
  execution_id : Int
  currency_pair : PyVal
  trade_side : String
  price : Dec
  quantity : Dec
  fee_amount : Dec
  market_role : String
  execution_time : Option String

deriving DecidableEq

/-- The `trade_side` branch of `TradeExecutionList.from_dict` (lines
249-256 of `models/trade.py`), on the raw `your_action` wire value. -/

def tradeSideOf (your_action : PyVal) : String :=
  if your_action = .str "both" then "self"
  else if your_action = .str "bid" then "buy"
  else if your_action = .str "ask" then "sell"
  else "unknown"

/-- The `market_role` branch of `TradeExecutionList.from_dict` (lines
258-270 of `models/trade.py`), on the raw `action` / `your_action` wire
values. -/

def marketRoleOf (action your_action : PyVal) : String :=
  if your_action = .str "both" then "both"
  else if (action = .str "bid" ∧ your_action = .str "bid") ∨
      (action = .str "ask" ∧ your_action = .str "ask") then "taker"
  else if (action = .str "bid" ∧ your_action = .str "ask") ∨
      (action = .str "ask" ∧ your_action = .str "bid") then "maker"
  else "unknown"

/-- The `try:` body for one entry of `TradeExecutionList.from_dict`.
`epochToIso` abstracts `datetime.fromtimestamp(·).isoformat()` (local-time
dependent; every theorem below holds for all of its values). -/

def TradeExecution.parseEntry (epochToIso : Int → String) (trade_id : String)
    (item : List (String × PyVal)) : Except PyExc TradeExecution := do
  let trade_id_int ← pyInt (.str trade_id)
  let execution_time ←
    match dictGet item "timestamp" with
    | Option.none => Except.ok Option.none
    | some PyVal.none => Except.ok Option.none
    | some v =>
        if v = .str "" then Except.ok Option.none
        else do
          let n ← pyInt v
          Except.ok (some (epochToIso n))
  let action := dictGetD item "action" (.str "")
  let your_action := dictGetD item "your_action" (.str "")
  let trade_side := tradeSideOf your_action
  let market_role := marketRoleOf action your_action
  let price ← pyDecimal (dictGetD item "price" (.str "0"))
  let quantity ← pyDecimal (dictGetD item "amount" (.str "0"))
  let fee ← pyDecimal (dictGetD item "fee" (.str "0"))
  Except.ok ⟨trade_id_int, dictGetD item "currency_pair" (.str ""),
    trade_side, price, quantity, fee, market_role, execution_time⟩

/-- Which exceptions the normalizers' `except (ValueError, TypeError,
KeyError)` clause catches.  `decimal.InvalidOperation` is absent: it
derives from `ArithmeticError`. -/

def catchesConv : PyExc → Bool
  | .valueError _ => true
  | .typeError => true
  | .keyError _ => true
  | _ => false

/-- Trade-execution history, `zaifer_mcp/models/trade.py`. -/

structure TradeExecutionList where
  executions : List TradeExecution

deriving DecidableEq

/-- The entry loop of `TradeExecutionList.from_dict`: non-dict values are
skipped, caught conversion errors skip the entry (with a printed warning),
anything else propagates. -/

def TradeExecutionList.parseEntries (epochToIso : Int → String) :
    List (String × PyVal) → Except PyExc (List TradeExecution)
  | [] => Except.ok []
  | (k, v) :: rest =>
      match v with
      | .dict item =>
          match TradeExecution.parseEntry epochToIso k item with
          | Except.ok e => do
              let es ← TradeExecutionList.parseEntries epochToIso rest
              Except.ok (e :: es)
          | Except.error ex =>
              if catchesConv ex then TradeExecutionList.parseEntries epochToIso rest
              else Except.error ex
      | _ => TradeExecutionList.parseEntries epochToIso rest

/-- `TradeExecutionList.from_dict`. -/

def TradeExecutionList.from_dict (epochToIso : Int → String)
    (data : List (String × PyVal)) : Except PyExc TradeExecutionList :=
  (TradeExecutionList.parseEntries epochToIso data).map TradeExecutionList.mk

/-- `TradeExecutionList.to_dict`: note that it produces a *list* of dicts
(with `trade_side` under the wire key `action` and `market_role` under
`your_action`), not the id-keyed mapping `from_dict` consumes. -/

def TradeExecutionList.to_dict (l : TradeExecutionList) : List PyVal :=
  l.executions.map fun e =>
    .dict ([("id", .int e.execution_id),
      ("currency_pair", e.currency_pair),
      ("action", .str e.trade_side),
      ("price", .str (decPrint e.price)),
      ("amount", .str (decPrint e.quantity)),
      ("fee", .str (decPrint e.fee_amount)),
      ("your_action", .str e.market_role)] ++
      (match e.execution_time with
       | some t => [("timestamp", .str t)]
       | Option.none => []))

/-- One deposit-history entry, `zaifer_mcp/models/account.py`.
`address` and `txid` are `item.get(...)` values stored unchanged. -/

structure DepositHistoryItem where
  id : Int
  timestamp : Int
  address : PyVal
  amount : Dec
  txid : PyVal

deriving DecidableEq

/-- The `try:` body for one entry of `DepositRecords.from_dict`. -/

def DepositHistoryItem.parseEntry (deposit_id : String)
    (item : List (String × PyVal)) : Except PyExc DepositHistoryItem := do
  let deposit_id_int ← pyInt (.str deposit_id)
  let timestamp ←
    match dictGet item "timestamp" with
    | Option.none => Except.ok (0 : Int)
    | some PyVal.none => Except.ok (0 : Int)
    | some v =>
        if v = .str "" then Except.ok (0 : Int)
        else pyInt v
  let amount ← pyDecimal (dictGetD item "amount" (.str "0"))
  Except.ok ⟨deposit_id_int, timestamp, dictGetD item "address" (.str ""),
    amount, dictGetD item "txid" (.str "")⟩

/-- Deposit history, `zaifer_mcp/models/account.py`. -/

structure DepositRecords where
  items : List DepositHistoryItem

deriving DecidableEq

/-- The entry loop of `DepositRecords.from_dict`: non-dict values are
skipped, caught conversion errors skip the entry (with a printed warning),
anything else propagates. -/

def DepositRecords.parseEntries :
    List (String × PyVal) → Except PyExc (List DepositHistoryItem)
  | [] => Except.ok []
  | (k, v) :: rest =>
      match v with
      | .dict item =>
          match DepositHistoryItem.parseEntry k item with
          | Except.ok e => do
              let es ← DepositRecords.parseEntries rest
              Except.ok (e :: es)
          | Except.error ex =>
              if catchesConv ex then DepositRecords.parseEntries rest
              else Except.error ex
      | _ => DepositRecords.parseEntries rest

/-- `DepositRecords.from_dict`. -/

def DepositRecords.from_dict (data : List (String × PyVal)) :
    Except PyExc DepositRecords :=
  (DepositRecords.parseEntries data).map DepositRecords.mk

/-- One candlestick, `zaifer_mcp/models/chart.py`. -/

structure CandlestickData where
  timestamp : String
  open_price : Dec
  high_price : Dec
  low_price : Dec
  close_price : Dec
  volume : Dec

deriving DecidableEq

/-- One iteration of the `ohlc_data` loop in `PriceChartData.from_dict`.
`msToIso` abstracts `datetime.fromtimestamp(timestamp_ms / 1000).isoformat()`
(floating-point and local-time dependent; every theorem below holds for
all of its values). -/

def CandlestickData.parseItem (msToIso : Int → String) :
    PyVal → Except PyExc CandlestickData
  | .dict item => do
      let timestamp_ms ← pyInt (dictGetD item "time" (.int 0))
      let o ← pyDecimal (dictGetD item "open" (.str "0"))
      let h ← pyDecimal (dictGetD item "high" (.str "0"))
      let l ← pyDecimal (dictGetD item "low" (.str "0"))
      let c ← pyDecimal (dictGetD item "close" (.str "0"))
      let v ← pyDecimal (dictGetD item "volume" (.str "0"))
      Except.ok ⟨msToIso timestamp_ms, o, h, l, c, v⟩
  | _ => Except.error PyExc.attributeError

/-- The `ohlc_data` loop of `PriceChartData.from_dict`. -/

def CandlestickData.parseItems (msToIso : Int → String) :
    List PyVal → Except PyExc (List CandlestickData)
  | [] => Except.ok []
  | v :: rest => do
      let c ← CandlestickData.parseItem msToIso v
      let cs ← CandlestickData.parseItems msToIso rest
      Except.ok (c :: cs)

/-- The `timeframe_names` display map of `PriceChartData.from_dict`,
with its `f"{timeframe}足"` default. -/

def timeframeDisplay (tf : String) : String :=
  if tf = "1" then "1分足"
  else if tf = "5" then "5分足"
  else if tf = "15" then "15分足"
  else if tf = "30" then "30分足"
  else if tf = "60" then "1時間足"
  else if tf = "240" then "4時間足"
  else if tf = "480" then "8時間足"
  else if tf = "720" then "12時間足"
  else if tf = "D" then "日足"
  else if tf = "W" then "週足"
  else tf ++ "足"

/-- Price chart data, `zaifer_mcp/models/chart.py`. -/

structure PriceChartData where
  currency_pair : String
  timeframe : String
  start_date : String
  end_date : String
  candlesticks : List CandlestickData
  data_count : Int

deriving DecidableEq

/-- `PriceChartData.from_dict(data, currency_pair, timeframe, start_date,
end_date)`: parses the candles, maps the timeframe to its display name and
takes `data_count` from `int(data.get('data_count', 0))` — not from the
number of parsed candles. -/

def PriceChartData.from_dict (msToIso : Int → String)
    (data : List (String × PyVal))
    (currency_pair timeframe start_date end_date : String) :
    Except PyExc PriceChartData := do
  let raw ← pyListElems (dictGetD data "ohlc_data" (.list []))
  let candlesticks ← CandlestickData.parseItems msToIso raw
  let data_count ← pyInt (dictGetD data "data_count" (.int 0))
  Except.ok ⟨currency_pair, timeframeDisplay timeframe, start_date, end_date,
    candlesticks, data_count⟩

/-- The digit string built by `NonceGenerator.generate`:
`str(int(time.mktime(now.timetuple()))) + "." + "{0:06d}".format(now.microsecond)`,
from the clock reading `(sec, usec)`. -/

def nonceChars (sec usec : Nat) : List Char :=
  natChars sec ++ '.' :: padDigits 6 usec

/-- `NonceGenerator.generate`, `zaifer_mcp/api/client.py` lines 21-31:
the `Decimal` built from `nonceChars`.  (`Option.none` is unreachable for
a real clock reading, see `NonceGenerator.generate_eq`.) -/

def NonceGenerator.generate (sec usec : Nat) : Option Dec :=
  decParse (String.mk (nonceChars sec usec))

/-- Request signer credentials, `zaifer_mcp/api/client.py`. -/

structure ApiKeyAuthProvider where
  api_key : String
  api_secret : String

deriving DecidableEq

/-- `urllib.parse.urlencode`, restricted to what the claims need: the
`k=v` pairs joined by `&` (percent-escaping is not modelled; no verified
claim examines the encoded text). -/

def urlencode (params : List (String × PyVal)) : String :=
  String.intercalate "&" (params.map fun p => p.1 ++ "=" ++ pyStr p.2)

/-- Uninterpreted rendering of
`hmac.new(secret, msg, hashlib.sha512).hexdigest()`: every verified claim
treats the digest as an opaque function of `(secret, message)`. -/

def hmacSha512Hex (secret msg : String) : String :=
  "hmac-sha512[" ++ secret ++ "|" ++ msg ++ "]"

/-- `ApiKeyAuthProvider.get_auth_headers(params)` with the fresh nonce as
an explicit clock input.  `if not params: params = {}` rebinds the local
name when the caller's dict is empty (or `None`), so only a non-empty
caller dict is mutated by `params["nonce"] = str(...)`.  The first
component is the returned headers; the second is the caller's dict as the
caller observes it after the call. -/

def ApiKeyAuthProvider.get_auth_headers (ap : ApiKeyAuthProvider)
    (params : List (String × PyVal)) (nonce : Dec) :
    List (String × String) × List (String × PyVal) :=
  let ps := if params.isEmpty then [] else params
  let ps2 := dictSet ps "nonce" (.str (decPrint nonce))
  ([("key", ap.api_key), ("sign", hmacSha512Hex ap.api_secret (urlencode ps2))],
   if params.isEmpty then params else ps2)

/-- The transport seen by `HttpClient.post`: either the decoded JSON body
of a 2xx response, or the message of the uniform `ValueError` the source
raises for connection/timeout/HTTP-status/decode failures. -/

structure Transport where
  resp : Except String PyVal

/-- `HttpClient.post`, `zaifer_mcp/api/client.py` lines 130-197, with the
nonce as an explicit clock input.  Returns the result paired with the
number of transport invocations.  With no `auth_provider` it raises
before any transport call.  After a successful exchange it unwraps the
envelope: `success == 0` raises `API error: <error field>` (`apiError`
here), otherwise the `return` sub-object is extracted when present. -/

def HttpClient.post (auth_provider : Option ApiKeyAuthProvider)
    (params : List (String × PyVal)) (nonce : Dec) (t : Transport) :
    Except PyExc PyVal × Nat :=
  match auth_provider with
  | Option.none =>
      (Except.error (PyExc.valueError
        "認証情報が設定されていません。ZAIF_API_KEYとZAIF_API_SECRETを環境変数に設定してください。"),
       0)
  | some ap =>
      let ps := if params.isEmpty then [] else params
      let (headers, psAfter) := ap.get_auth_headers ps nonce
      let _encoded := urlencode psAfter
      let _headers := headers
      match t.resp with
      | Except.error msg => (Except.error (PyExc.valueError msg), 1)
      | Except.ok result =>
          match result with
          | .dict d =>
              if dictGet d "success" = some (.int 0) then
                (Except.error (PyExc.apiError
                  (pyStr (dictGetD d "error" (.str "Unknown error")))), 1)
              else
                match dictGet d "return" with
                | some r => (Except.ok r, 1)
                | Option.none => (Except.ok (.dict d), 1)
          | _ => (Except.error PyExc.attributeError, 1)

/-- The supported currency pairs hard-coded in `zaifer_mcp/tools/trade.py`. -/

def supportedPairs : List String := ["btc_jpy", "eth_jpy", "xym_jpy"]

/-- `TradeApi.open_order`, `zaifer_mcp/api/client.py` lines 432-460: build
the `trade` params and POST.  The source sends `float(price)` /
`float(amount)`; only their encoded text reaches the transport, so they
are rendered via `decPrint` (the decimal-to-float caveat of the spec is
out of scope of the verified claims). -/

def TradeApi.open_order (auth : Option ApiKeyAuthProvider)
    (currency_pair action : String) (price amount : Dec) (nonce : Dec)
    (t : Transport) : Except PyExc OrderResponse × Nat :=
  let params : List (String × PyVal) :=
    [("currency_pair", .str currency_pair), ("action", .str action),
     ("price", .str (decPrint price)), ("amount", .str (decPrint amount)),
     ("method", .str "trade")]
  match HttpClient.post auth params nonce t with
  | (Except.error e, n) => (Except.error e, n)
  | (Except.ok data, n) =>
      match data with
      | .dict d => (OrderResponse.from_dict d, n)
      | _ => (Except.error PyExc.attributeError, n)

/-- `TradeApi.get_trade_history`, `zaifer_mcp/api/client.py` lines
512-547: build the `trade_history` params (`if currency_pair:` is a
truthiness test, so an empty string is also dropped) and POST, then
normalize. -/

def TradeApi.get_trade_history (auth : Option ApiKeyAuthProvider)
    (currency_pair : Option String) (count : Option Int)
    (from_timestamp end_timestamp : Option Int) (nonce : Dec)
    (epochToIso : Int → String) (t : Transport) :
    Except PyExc TradeExecutionList × Nat :=
  let params : List (String × PyVal) :=
    (match currency_pair with
     | some cp => if cp = "" then [] else [("currency_pair", .str cp)]
     | Option.none => []) ++
    (match count with
     | some c => [("count", .int c)]
     | Option.none => []) ++
    (match from_timestamp with
     | some ts => [("since", .int ts)]
     | Option.none => []) ++
    (match end_timestamp with
     | some ts => [("end", .int ts)]
     | Option.none => []) ++
    [("method", .str "trade_history")]
  match HttpClient.post auth params nonce t with
  | (Except.error e, n) => (Except.error e, n)
  | (Except.ok data, n) =>
      match data with
      | .dict d => (TradeExecutionList.from_dict epochToIso d, n)
      | _ => (Except.error PyExc.attributeError, n)

/-- The `place_order` tool handler, `zaifer_mcp/tools/trade.py` lines
30-76: its own missing-credentials guard, then the facade call. -/

def Tools.place_order (auth : Option ApiKeyAuthProvider)
    (currency_pair order_type : String) (price quantity : Dec) (nonce : Dec)
    (t : Transport) : Except PyExc OrderResponse × Nat :=
  match auth with
  | Option.none =>
      (Except.error (PyExc.valueError
        "認証情報が設定されていません。APIキーとシークレットを.envファイルに設定してください。"),
       0)
  | some _ => TradeApi.open_order auth currency_pair order_type price quantity nonce t

/-- The `get_trade_executions` tool handler, `zaifer_mcp/tools/trade.py`
lines 166-251: credentials guard, currency-pair allow-list, date parsing
(`isoToEpoch` / `isoToEndOfDayEpoch` abstract
`int(datetime.fromisoformat(...).timestamp())`, the second with the
`23:59:59` replacement; both local-time dependent), facade call, then the
supported-pair result filter. -/

def Tools.get_trade_executions (auth : Option ApiKeyAuthProvider)
    (currency_pair : Option String) (limit : Int)
    (start_date end_date : String)
    (isoToEpoch isoToEndOfDayEpoch : String → Except PyExc Int)
    (nonce : Dec) (epochToIso : Int → String) (t : Transport) :
    Except PyExc TradeExecutionList × Nat :=
  match auth with
  | Option.none =>
      (Except.error (PyExc.valueError
        "認証情報が設定されていません。APIキーとシークレットを.envファイルに設定してください。"),
       0)
  | some _ =>
      if currency_pair.isSome ∧ ¬(currency_pair.getD "") ∈ supportedPairs then
        (Except.error (PyExc.valueError
          ("サポートされていない通貨ペアです: " ++ currency_pair.getD "")), 0)
      else
        match (if start_date = "" then Except.ok Option.none
               else (isoToEpoch start_date).map some : Except PyExc (Option Int)) with
        | Except.error e => (Except.error e, 0)
        | Except.ok from_timestamp =>
            match (if end_date = "" then Except.ok Option.none
                   else (isoToEndOfDayEpoch end_date).map some :
                     Except PyExc (Option Int)) with
            | Except.error e => (Except.error e, 0)
            | Except.ok end_timestamp =>
                match TradeApi.get_trade_history auth currency_pair (some limit)
                    from_timestamp end_timestamp nonce epochToIso t with
                | (Except.error e, n) => (Except.error e, n)
                | (Except.ok th, n) =>
                    (Except.ok ⟨th.executions.filter fun e =>
                      decide (e.currency_pair ∈ supportedPairs.map PyVal.str)⟩, n)

theorem natCharsAux_eq : ∀ (fuel n : Nat), n ≤ fuel →
    natCharsAux (fuel + 1) n =
      if n = 0 then ['0'] else (Nat.digits 10 n).reverse.map digitChar := by
  intro fuel
  induction fuel with
  | zero =>
      intro n h
      interval_cases n
      rfl
  | succ fuel ih =>
      intro n h
      rw [natCharsAux]
      by_cases h0 : n = 0
      · subst h0; rfl
      · rw [if_neg h0]
        by_cases h10 : n < 10
        · rw [if_pos h10]
          rw [Nat.digits_def' (by norm_num : 1 < 10) (Nat.pos_of_ne_zero h0)]
          rw [Nat.div_eq_of_lt h10, Nat.digits_zero]
          rw [Nat.mod_eq_of_lt h10]
          rfl
        · rw [if_neg h10]
          have hd : n / 10 ≤ fuel := by
            have : n / 10 < n := Nat.div_lt_self (Nat.pos_of_ne_zero h0) (by norm_num)
            omega
          rw [ih (n / 10) hd, if_neg (by omega : ¬n / 10 = 0)]
          rw [Nat.digits_def' (by norm_num : 1 < 10) (Nat.pos_of_ne_zero h0)]
          simp

theorem natChars_eq (n : Nat) :
    natChars n = if n = 0 then ['0'] else (Nat.digits 10 n).reverse.map digitChar :=
  natCharsAux_eq n n le_rfl

theorem digitVal_digitChar {d : Nat} (h : d < 10) : digitVal (digitChar d) = d := by
  interval_cases d <;> rfl

theorem isDigit_digitChar {d : Nat} (h : d < 10) : (digitChar d).isDigit = true := by
  interval_cases d <;> rfl

theorem natChars_ne_nil (n : Nat) : natChars n ≠ [] := by
  rw [natChars_eq]
  split
  · simp
  · simp [Nat.digits_ne_nil_iff_ne_zero, *]

theorem natChars_all_digit (n : Nat) : ∀ c ∈ natChars n, c.isDigit = true := by
  intro c hc
  rw [natChars_eq] at hc
  split at hc
  · simp at hc; subst hc; rfl
  · simp only [List.mem_map, List.mem_reverse] at hc
    obtain ⟨d, hd, rfl⟩ := hc
    exact isDigit_digitChar (Nat.digits_lt_base (by norm_num) hd)

theorem foldr_mul_add_eq_ofDigits (L : List Nat) :
    L.foldr (fun d a => a * 10 + d) 0 = Nat.ofDigits 10 L := by
  induction L with
  | nil => simp [Nat.ofDigits]
  | cons d L ih =>
      simp only [List.foldr_cons, ih, Nat.ofDigits_cons]
      ring

theorem foldr_digitVal_digitChar (L : List Nat) (h : ∀ d ∈ L, d < 10) :
    L.foldr (fun d a => a * 10 + digitVal (digitChar d)) 0 =
      L.foldr (fun d a => a * 10 + d) 0 := by
  induction L with
  | nil => rfl
  | cons d L ih =>
      simp only [List.foldr_cons]
      rw [ih fun x hx => h x (List.mem_cons_of_mem _ hx),
        digitVal_digitChar (h d (List.mem_cons_self _ _))]

theorem foldl_natChars (n : Nat) :
    (natChars n).foldl (fun a c => a * 10 + digitVal c) 0 = n := by
  rw [natChars_eq]
  split
  · simp_all [digitVal]
  · rw [List.map_reverse, List.foldl_reverse, List.foldr_map]
    have h1 : ∀ d ∈ Nat.digits 10 n, d < 10 :=
      fun d hd => Nat.digits_lt_base (by norm_num) hd
    calc (Nat.digits 10 n).foldr (fun x y => y * 10 + digitVal (digitChar x)) 0
        = (Nat.digits 10 n).foldr (fun d a => a * 10 + d) 0 :=
          foldr_digitVal_digitChar _ h1
      _ = Nat.ofDigits 10 (Nat.digits 10 n) := foldr_mul_add_eq_ofDigits _
      _ = n := Nat.ofDigits_digits 10 n

theorem parseNatChars_natChars (n : Nat) : parseNatChars (natChars n) = some n := by
  unfold parseNatChars
  rw [if_neg (by simpa using natChars_ne_nil n),
    if_pos (by rw [List.all_eq_true]; exact natChars_all_digit n)]
  exact congrArg some (foldl_natChars n)

theorem natChars_length_le {n k : Nat} (hk : 1 ≤ k) (h : n < 10 ^ k) :
    (natChars n).length ≤ k := by
  rw [natChars_eq]
  split
  · simpa
  · simp only [List.length_map, List.length_reverse]
    rw [Nat.digits_len 10 n (by norm_num) (by assumption)]
    have := Nat.log_lt_of_lt_pow (by assumption) h
    omega

theorem foldl_replicate_zero (k : Nat) (l : List Char) :
    (List.replicate k '0' ++ l).foldl (fun a c => a * 10 + digitVal c) 0 =
      l.foldl (fun a c => a * 10 + digitVal c) 0 := by
  induction k with
  | zero => rfl
  | succ k ih => simpa [List.replicate_succ] using ih

theorem parseNatChars_padDigits {w n : Nat} (hw : 1 ≤ w) (h : n < 10 ^ w) :
    parseNatChars (padDigits w n) = some n ∧ (padDigits w n).length = w := by
  constructor
  · unfold parseNatChars padDigits
    rw [if_neg (by simp [natChars_ne_nil n]),
      if_pos (by
        rw [List.all_eq_true]
        intro c hc
        rcases List.mem_append.mp hc with hc | hc
        · rw [List.eq_of_mem_replicate hc]; rfl
        · exact natChars_all_digit n c hc)]
    rw [foldl_replicate_zero]
    exact congrArg some (foldl_natChars n)
  · unfold padDigits
    rw [List.length_append, List.length_replicate]
    have := natChars_length_le hw h
    omega

theorem natChars_no_dot (n : Nat) : ∀ c ∈ natChars n, ¬c = '.' := by
  intro c hc h
  have := natChars_all_digit n c hc
  subst h
  simp [Char.isDigit] at this

theorem natChars_no_minus (n : Nat) : ∀ c ∈ natChars n, ¬c = '-' := by
  intro c hc h
  have := natChars_all_digit n c hc
  subst h
  simp [Char.isDigit] at this

theorem splitDot_no_dot {l : List Char} (h : ∀ c ∈ l, ¬c = '.') :
    splitDot l = (l, Option.none) := by
  induction l with
  | nil => rfl
  | cons c rest ih =>
      rw [splitDot, if_neg (h c (List.mem_cons_self _ _)),
        ih fun x hx => h x (List.mem_cons_of_mem _ hx)]

theorem splitDot_append {A B : List Char} (h : ∀ c ∈ A, ¬c = '.') :
    splitDot (A ++ '.' :: B) = (A, some B) := by
  induction A with
  | nil => simp [splitDot]
  | cons c rest ih =>
      rw [List.cons_append, splitDot, if_neg (h c (List.mem_cons_self _ _)),
        ih fun x hx => h x (List.mem_cons_of_mem _ hx)]

theorem toList_mk (l : List Char) : (String.mk l).toList = l := rfl

theorem splitSign_minus (l : List Char) : splitSign ('-' :: l) = (true, l) := by
  simp [splitSign]

theorem splitSign_of_no_minus {l : List Char} (h : ∀ c ∈ l, ¬c = '-') :
    splitSign l = (false, l) := by
  cases l with
  | nil => rfl
  | cons c rest => simp [splitSign, h c (List.mem_cons_self _ _)]

theorem isDigit_ne {c : Char} (h : c.isDigit = true) : ¬c = '-' ∧ ¬c = '.' := by
  constructor <;> (intro hh; subst hh; simp [Char.isDigit] at h)

theorem padDigits_all_digit (w n : Nat) : ∀ c ∈ padDigits w n, c.isDigit = true := by
  intro c hc
  rcases List.mem_append.mp hc with hc | hc
  · rw [List.eq_of_mem_replicate hc]; rfl
  · exact natChars_all_digit n c hc

theorem decParse_decPrint (d : Dec) : decParse (decPrint d) = some d := by
  obtain ⟨m, s⟩ := d
  by_cases hs : s = 0
  · subst hs
    by_cases hm : m < 0
    · have h1 : decPrint ⟨m, 0⟩ = String.mk ('-' :: natChars m.natAbs) := by
        simp [decPrint, hm]
      rw [h1]
      unfold decParse
      rw [toList_mk, splitSign_minus]
      dsimp only
      rw [splitDot_no_dot (natChars_no_dot _)]
      dsimp only
      rw [parseNatChars_natChars]
      dsimp only
      rw [if_pos rfl]
      congr 1
      congr 1
      omega
    · have h1 : decPrint ⟨m, 0⟩ = String.mk (natChars m.natAbs) := by
        simp [decPrint, hm]
      rw [h1]
      unfold decParse
      rw [toList_mk, splitSign_of_no_minus (natChars_no_minus _)]
      dsimp only
      rw [splitDot_no_dot (natChars_no_dot _)]
      dsimp only
      rw [parseNatChars_natChars]
      dsimp only
      rw [if_neg (by simp)]
      congr 1
      congr 1
      omega
  · have hpow : 0 < 10 ^ s := Nat.pos_pow_of_pos s (by norm_num)
    have hmod : m.natAbs % 10 ^ s < 10 ^ s := Nat.mod_lt _ hpow
    have hpad := parseNatChars_padDigits (n := m.natAbs % 10 ^ s)
      (Nat.one_le_iff_ne_zero.mpr hs) hmod
    have hval : m.natAbs / 10 ^ s * 10 ^ s + m.natAbs % 10 ^ s = m.natAbs :=
      Nat.div_add_mod' m.natAbs (10 ^ s)
    by_cases hm : m < 0
    · have h1 : decPrint ⟨m, s⟩ = String.mk ('-' ::
          (natChars (m.natAbs / 10 ^ s) ++ '.' ::
            padDigits s (m.natAbs % 10 ^ s))) := by
        simp [decPrint, hm, hs]
      rw [h1]
      unfold decParse
      rw [toList_mk, splitSign_minus]
      dsimp only
      rw [splitDot_append (natChars_no_dot _)]
      dsimp only
      rw [parseNatChars_natChars, hpad.1]
      dsimp only
      rw [if_pos rfl]
      congr 1
      congr 1
      · rw [hpad.2, hval]
        omega
      · exact hpad.2
    · have h1 : decPrint ⟨m, s⟩ = String.mk
          (natChars (m.natAbs / 10 ^ s) ++ '.' ::
            padDigits s (m.natAbs % 10 ^ s)) := by
        simp [decPrint, hm, hs]
      rw [h1]
      unfold decParse
      rw [toList_mk,
        splitSign_of_no_minus (by
          intro c hc
          rcases List.mem_append.mp hc with hc | hc
          · exact natChars_no_minus _ c hc
          · rcases List.mem_cons.mp hc with rfl | hc
            · intro hh; cases hh
            · exact (isDigit_ne (padDigits_all_digit _ _ c hc)).1)]
      dsimp only
      rw [splitDot_append (natChars_no_dot _)]
      dsimp only
      rw [parseNatChars_natChars, hpad.1]
      dsimp only
      rw [if_neg (by simp)]
      congr 1
      congr 1
      · rw [hpad.2, hval]
        omega
      · exact hpad.2

theorem pyDecimal_decPrint (d : Dec) :
    pyDecimal (PyVal.str (decPrint d)) = Except.ok d := by
  unfold pyDecimal pyStr
  rw [decParse_decPrint]

theorem mapValuesDecimal_encode (l : List (String × Dec)) :
    mapValuesDecimal (encodeValuesDecimal l) = Except.ok l := by
  induction l with
  | nil => rfl
  | cons p rest ih =>
      obtain ⟨k, d⟩ := p
      show mapValuesDecimal ((k, PyVal.str (decPrint d)) :: encodeValuesDecimal rest)
        = Except.ok ((k, d) :: rest)
      rw [mapValuesDecimal, pyDecimal_decPrint, ih]
      rfl

theorem NonceGenerator.generate_eq (sec usec : Nat) (h : usec < 10 ^ 6) :
    NonceGenerator.generate sec usec = some ⟨(sec * 10 ^ 6 + usec : Nat), 6⟩ := by
  have hpad := parseNatChars_padDigits (n := usec) (by norm_num) h
  unfold NonceGenerator.generate nonceChars decParse
  rw [toList_mk,
    splitSign_of_no_minus (by
      intro c hc
      rcases List.mem_append.mp hc with hc | hc
      · exact natChars_no_minus _ c hc
      · rcases List.mem_cons.mp hc with rfl | hc
        · intro hh; cases hh
        · exact (isDigit_ne (padDigits_all_digit _ _ c hc)).1)]
  dsimp only
  rw [splitDot_append (natChars_no_dot _)]
  dsimp only
  rw [parseNatChars_natChars, hpad.1]
  dsimp only
  rw [if_neg (by simp)]
  rw [hpad.2]

theorem except_bind_ok {ε α β : Type} (a : α) (f : α → Except ε β) :
    (Except.ok a : Except ε α) >>= f = f a := rfl

theorem dictGet_dictSet (l : List (String × PyVal)) (k q : String) (v : PyVal) :
    dictGet (dictSet l k v) q = if q = k then some v else dictGet l q := by
  induction l with
  | nil =>
      simp only [dictSet, dictGet]
      by_cases h : k = q
      · rw [if_pos h, if_pos h.symm]
      · rw [if_neg h, if_neg fun hh => h hh.symm]
  | cons p rest ih =>
      obtain ⟨k0, v0⟩ := p
      simp only [dictSet]
      by_cases h0 : k0 = k
      · subst h0
        rw [if_pos rfl]
        simp only [dictGet]
        by_cases hq : k0 = q
        · rw [if_pos hq, if_pos hq.symm]
        · rw [if_neg hq, if_neg fun hh => hq hh.symm, if_neg hq]
      · rw [if_neg h0]
        simp only [dictGet]
        by_cases hq : k0 = q
        · rw [if_pos hq, if_pos hq, if_neg fun hh => h0 (hq.trans hh)]
        · rw [if_neg hq, if_neg hq, ih]

theorem parseSide_encode (l : List OrderBookItem) :
    OrderBook.parseSide (l.map fun i =>
      PyVal.list [.str (decPrint i.price), .str (decPrint i.quantity)]) =
      Except.ok l := by
  induction l with
  | nil => rfl
  | cons i rest ih =>
      obtain ⟨p, q⟩ := i
      rw [List.map_cons, OrderBook.parseSide]
      simp [pyIndex, except_bind_ok, pyDecimal_decPrint, ih]

/-- C1, counterexample: the claim's table demands `market_role = 'maker'`
whenever `your_action = 'bid'` and `action ≠ 'bid'`; but for the wire entry
with `your_action = 'bid'` and `action = ''` (neither `bid` nor `ask`),
`TradeExecutionList.from_dict` derives `('buy', 'unknown')`, and
`'unknown' ≠ 'maker'`. -/
theorem C1_market_role_counterexample :
    TradeExecutionList.from_dict (fun _ => "")
        [("1", .dict [("action", .str ""), ("your_action", .str "bid")])] =
      Except.ok ⟨[⟨1, .str "", "buy", ⟨0, 0⟩, ⟨0, 0⟩, ⟨0, 0⟩, "unknown",
        Option.none⟩]⟩ ∧
    ¬("unknown" : String) = "maker" :=
  ⟨by decide, by decide⟩

/-- C1, amended: for every `(your_action, action)` wire pair,
`TradeExecutionList.from_dict` derives `trade_side` from `your_action`
(`both ↦ self`, `bid ↦ buy`, `ask ↦ sell`, other ↦ `unknown`) and
`market_role = taker` when `action` matches `your_action` on `bid`/`ask`,
`maker` when they are the opposite `bid`/`ask` pair, `both` for
`your_action = both`, and `unknown` otherwise — in particular `unknown`
(not `maker`) when `action` is neither `bid` nor `ask`. -/
theorem C1_market_role_table_amended (ya a : String) (f : Int → String) :
    TradeExecutionList.from_dict f
        [("1", .dict [("action", .str a), ("your_action", .str ya)])] =
      Except.ok ⟨[⟨1, .str "", tradeSideOf (.str ya), ⟨0, 0⟩, ⟨0, 0⟩, ⟨0, 0⟩,
        marketRoleOf (.str a) (.str ya), Option.none⟩]⟩ ∧
    tradeSideOf (.str ya) =
      (if ya = "both" then "self" else if ya = "bid" then "buy"
       else if ya = "ask" then "sell" else "unknown") ∧
    marketRoleOf (.str a) (.str ya) =
      (if ya = "both" then "both"
       else if ya = "bid" then
         (if a = "bid" then "taker" else if a = "ask" then "maker" else "unknown")
       else if ya = "ask" then
         (if a = "ask" then "taker" else if a = "bid" then "maker" else "unknown")
       else "unknown") := by
  refine ⟨rfl, ?_, ?_⟩
  · simp [tradeSideOf]
  · simp only [marketRoleOf, PyVal.str.injEq]
    split_ifs <;> simp_all

/-- C2, counterexample: the round-trip claim fails for `CurrencyPair`:
`to_dict` emits the LLM-facing keys while `from_dict` requires the wire
key `item_japanese`, so `from_dict(to_dict(x))` raises `KeyError` instead
of returning `x`. -/
theorem C2_roundtrip_counterexample :
    CurrencyPair.from_dict (CurrencyPair.to_dict
        ⟨.str "btc_jpy", ⟨1, 3⟩, ⟨1, 4⟩, ⟨5, 0⟩, ⟨5, 0⟩, 0, "ビットコイン/円"⟩) =
      Except.error (PyExc.keyError "item_japanese") ∧
    ¬(Except.error (PyExc.keyError "item_japanese") :
        Except PyExc CurrencyPair) =
      Except.ok ⟨.str "btc_jpy", ⟨1, 3⟩, ⟨1, 4⟩, ⟨5, 0⟩, ⟨5, 0⟩, 0,
        "ビットコイン/円"⟩ :=
  ⟨by decide, by decide⟩

/-- C2, amended: `from_dict(to_dict(x)) = x` holds for every value of the
record types whose `to_dict` emits exactly the wire keys `from_dict`
consumes: `Ticker`, `OrderBook`, `AccountBalance`, `OrderResponse` and
`CancelOrderResponse`.  It fails for `CurrencyPair` (counterexample),
`OpenOrderList` (`to_dict` writes the time under `date`, `from_dict`
reads `timestamp`), and is ill-typed for `TradeExecutionList`,
`DepositRecords` and `WithdrawalRecords`, whose `to_dict` produces a list
while `from_dict` consumes an id-keyed mapping; `PriceChartData.from_dict`
takes extra arguments and rewrites the timeframe. -/
theorem C2_roundtrip_amended :
    (∀ t : Ticker, Ticker.from_dict (Ticker.to_dict t) = Except.ok t) ∧
    (∀ ob : OrderBook, OrderBook.from_dict (OrderBook.to_dict ob) = Except.ok ob) ∧
    (∀ a : AccountBalance,
      AccountBalance.from_dict (AccountBalance.to_dict a) = Except.ok a) ∧
    (∀ r : OrderResponse,
      OrderResponse.from_dict (OrderResponse.to_dict r) = Except.ok r) ∧
    (∀ c : CancelOrderResponse,
      CancelOrderResponse.from_dict (CancelOrderResponse.to_dict c) =
        Except.ok c) := by
  refine ⟨fun t => ?_, fun ob => ?_, fun a => ?_, fun r => ?_, fun c => ?_⟩
  · obtain ⟨a, b, c, d, e, f⟩ := t
    simp [Ticker.from_dict, Ticker.to_dict, dictGetItem, dictGet,
      pyDecimal_decPrint, except_bind_ok]
  · obtain ⟨asks, bids⟩ := ob
    simp [OrderBook.from_dict, OrderBook.to_dict, dictGetD, dictGet, pyListElems,
      parseSide_encode, except_bind_ok]
  · obtain ⟨bs, perms⟩ := a
    cases perms <;>
      simp [AccountBalance.from_dict, AccountBalance.to_dict, dictGetD, dictGet,
        pyDictItems, mapValuesDecimal_encode, except_bind_ok]
  · obtain ⟨fa, ua, oid, bs⟩ := r
    simp [OrderResponse.from_dict, OrderResponse.to_dict, dictGetD, dictGet,
      pyDictItems, mapValuesDecimal_encode, pyDecimal_decPrint, pyInt,
      except_bind_ok]
  · obtain ⟨oid, bs⟩ := c
    simp [CancelOrderResponse.from_dict, CancelOrderResponse.to_dict, dictGetD,
      dictGet, pyDictItems, mapValuesDecimal_encode, pyInt, except_bind_ok]

/-- C3: with exactly one entry whose `amount` is the non-numeric string
`"abc"`, `DepositRecords.from_dict` does not drop that entry and keep the
other: `Decimal("abc")` raises `decimal.InvalidOperation`, which the
`except (ValueError, TypeError, KeyError)` clause does not catch, so the
whole parse fails — although the remaining entry parses fine on its own
(second conjunct). -/
theorem C3_bad_amount_aborts_parse :
    DepositRecords.from_dict
        [("2", .dict [("amount", .str "abc")]),
         ("5", .dict [("amount", .str "1.5"), ("address", .str "addr"),
           ("txid", .str "t"), ("timestamp", .int 100)])] =
      Except.error PyExc.invalidOperation ∧
    DepositRecords.from_dict
        [("5", .dict [("amount", .str "1.5"), ("address", .str "addr"),
           ("txid", .str "t"), ("timestamp", .int 100)])] =
      Except.ok ⟨[⟨5, 100, .str "addr", ⟨15, 1⟩, .str "t"⟩]⟩ :=
  ⟨by decide, by decide⟩

/-- C4: with no configured auth provider, `HttpClient.post` and the tool
handlers `place_order` and `get_trade_executions` each return the
missing-credentials `ValueError` with zero transport invocations, for
every argument and every transport. -/
theorem C4_unauthenticated_guard :
    (∀ (params : List (String × PyVal)) (nonce : Dec) (t : Transport),
      HttpClient.post Option.none params nonce t =
        (Except.error (PyExc.valueError
          "認証情報が設定されていません。ZAIF_API_KEYとZAIF_API_SECRETを環境変数に設定してください。"),
         0)) ∧
    (∀ (cp ot : String) (price qty nonce : Dec) (t : Transport),
      Tools.place_order Option.none cp ot price qty nonce t =
        (Except.error (PyExc.valueError
          "認証情報が設定されていません。APIキーとシークレットを.envファイルに設定してください。"),
         0)) ∧
    (∀ (cp : Option String) (limit : Int) (sd ed : String)
        (f g : String → Except PyExc Int) (nonce : Dec) (h : Int → String)
        (t : Transport),
      Tools.get_trade_executions Option.none cp limit sd ed f g nonce h t =
        (Except.error (PyExc.valueError
          "認証情報が設定されていません。APIキーとシークレットを.envファイルに設定してください。"),
         0)) :=
  ⟨fun _ _ _ => rfl, fun _ _ _ _ _ _ => rfl, fun _ _ _ _ _ _ _ _ _ => rfl⟩

/-- C5: after a successful transport exchange, `HttpClient.post` unwraps
the envelope as claimed: `success = 0` surfaces the `error` field as the
API error message (`bad nonce`); `success = 1` with a `return` key yields
exactly the `return` sub-object; a successful body without a `return` key
yields the whole decoded body — in each case with exactly one transport
invocation. -/
theorem C5_envelope_unwrapping :
    (∀ (ap : ApiKeyAuthProvider) (params : List (String × PyVal)) (nonce : Dec),
      HttpClient.post (some ap) params nonce
          ⟨Except.ok (.dict [("success", .int 0), ("error", .str "bad nonce")])⟩ =
        (Except.error (PyExc.apiError "bad nonce"), 1)) ∧
    (∀ (ap : ApiKeyAuthProvider) (params : List (String × PyVal)) (nonce : Dec)
        (r : PyVal),
      HttpClient.post (some ap) params nonce
          ⟨Except.ok (.dict [("success", .int 1), ("return", r)])⟩ =
        (Except.ok r, 1)) ∧
    (∀ (ap : ApiKeyAuthProvider) (params : List (String × PyVal)) (nonce : Dec)
        (d : List (String × PyVal)),
      ¬dictGet d "success" = some (.int 0) → dictGet d "return" = Option.none →
      HttpClient.post (some ap) params nonce ⟨Except.ok (.dict d)⟩ =
        (Except.ok (.dict d), 1)) := by
  refine ⟨fun _ _ _ => rfl, fun _ _ _ _ => rfl, fun ap params nonce d h1 h2 => ?_⟩
  simp [HttpClient.post, h1, h2]

/-- C5, witness: the third unwrapping case at a concrete successful body
without `success` or `return` keys. -/
theorem C5_envelope_unwrapping_witness :
    HttpClient.post (some ⟨"key", "secret"⟩) [] ⟨1, 0⟩
        ⟨Except.ok (.dict [("funds", PyVal.none)])⟩ =
      (Except.ok (.dict [("funds", PyVal.none)]), 1) :=
  C5_envelope_unwrapping.2.2 ⟨"key", "secret"⟩ [] ⟨1, 0⟩ [("funds", PyVal.none)]
    (by decide) (by decide)

/-- C6: for clock readings with microseconds below `10^6`, taken at
strictly increasing wall-clock instants (non-decreasing time with a
distinct microsecond tick), successive nonces are strictly greater in the
numeric `Decimal` order. -/
theorem C6_nonce_monotonic (s1 u1 s2 u2 : Nat) (h1 : u1 < 10 ^ 6)
    (h2 : u2 < 10 ^ 6) (hlt : s1 < s2 ∨ (s1 = s2 ∧ u1 < u2)) :
    ∀ d1 d2, NonceGenerator.generate s1 u1 = some d1 →
      NonceGenerator.generate s2 u2 = some d2 → decLt d1 d2 := by
  intro d1 d2 e1 e2
  rw [NonceGenerator.generate_eq _ _ h1] at e1
  rw [NonceGenerator.generate_eq _ _ h2] at e2
  cases e1
  cases e2
  simp only [decLt]
  push_cast
  rcases hlt with h | ⟨rfl, h⟩ <;> nlinarith

/-- C6, witness: two generated nonces one microsecond apart within the
same second. -/
theorem C6_nonce_monotonic_witness :
    decLt ⟨1700000000000001, 6⟩ ⟨1700000000000002, 6⟩ :=
  C6_nonce_monotonic 1700000000 1 1700000000 2 (by norm_num) (by norm_num)
    (Or.inr ⟨rfl, by norm_num⟩) _ _ (by decide) (by decide)

/-- C7, counterexample: `get_auth_headers` does not operate on a copy:
after the call with the non-empty mapping `{'method': 'get_info'}`, the
caller's mapping is no longer equal to its original value (the nonce was
inserted in place). -/
theorem C7_params_copy_counterexample :
    ¬(ApiKeyAuthProvider.get_auth_headers ⟨"key", "secret"⟩
        [("method", .str "get_info")] ⟨1700000000123456, 6⟩).2 =
      [("method", .str "get_info")] := by decide

/-- C7, amended: `get_auth_headers` mutates the caller's mapping in place
when it is non-empty — afterwards `nonce` maps to the printed fresh nonce
and every other key is unchanged — while an empty caller mapping is left
untouched (the falsy-rebinding `if not params: params = {}` swaps in a
fresh local dict); there are no failure modes. -/
theorem C7_params_inplace_amended (ap : ApiKeyAuthProvider)
    (params : List (String × PyVal)) (nonce : Dec) :
    (params = [] → (ap.get_auth_headers params nonce).2 = params) ∧
    (¬params = [] →
      dictGet (ap.get_auth_headers params nonce).2 "nonce" =
        some (.str (decPrint nonce)) ∧
      ∀ k, ¬k = "nonce" →
        dictGet (ap.get_auth_headers params nonce).2 k = dictGet params k) := by
  constructor
  · intro h
    subst h
    rfl
  · intro h
    have hne : params.isEmpty = false := by
      cases params
      · exact absurd rfl h
      · rfl
    constructor
    · simp [ApiKeyAuthProvider.get_auth_headers, hne, dictGet_dictSet]
    · intro k hk
      simp [ApiKeyAuthProvider.get_auth_headers, hne, dictGet_dictSet, hk]

/-- C7, witness: the amended statement at a concrete non-empty mapping
and the nonce `1.5`. -/
theorem C7_params_inplace_witness :
    dictGet (ApiKeyAuthProvider.get_auth_headers ⟨"key", "secret"⟩
        [("method", .str "get_info")] ⟨15, 1⟩).2 "nonce" =
      some (.str "1.5") :=
  ((C7_params_inplace_amended ⟨"key", "secret"⟩ [("method", .str "get_info")]
      ⟨15, 1⟩).2 (by decide)).1

/-- C9: with credentials configured, calling the `get_trade_executions`
handler with a currency pair outside the supported set raises the
validation `ValueError` with zero transport invocations, for every limit,
date argument, date parser, clock and transport. -/
theorem C9_allowlist_guard (ap : ApiKeyAuthProvider) (cp : String) (limit : Int)
    (sd ed : String) (f g : String → Except PyExc Int) (nonce : Dec)
    (h : Int → String) (t : Transport) (hcp : ¬cp ∈ supportedPairs) :
    Tools.get_trade_executions (some ap) (some cp) limit sd ed f g nonce h t =
      (Except.error (PyExc.valueError
        ("サポートされていない通貨ペアです: " ++ cp)), 0) := by
  unfold Tools.get_trade_executions
  rw [if_pos ⟨rfl, hcp⟩]
  rfl

/-- C9, witness: the unsupported pair `doge_jpy`. -/
theorem C9_allowlist_guard_witness :
    Tools.get_trade_executions (some ⟨"key", "secret"⟩) (some "doge_jpy") 20 "" ""
        (fun _ => Except.error PyExc.typeError)
        (fun _ => Except.error PyExc.typeError) ⟨1, 0⟩ (fun _ => "")
        ⟨Except.ok PyVal.none⟩ =
      (Except.error (PyExc.valueError
        ("サポートされていない通貨ペアです: " ++ "doge_jpy")), 0) :=
  C9_allowlist_guard ⟨"key", "secret"⟩ "doge_jpy" 20 "" ""
    (fun _ => Except.error PyExc.typeError) (fun _ => Except.error PyExc.typeError)
    ⟨1, 0⟩ (fun _ => "") ⟨Except.ok PyVal.none⟩ (by decide)

/-- C10: `PriceChartData.from_dict` takes `data_count` from the response's
own `data_count` field (first conjunct), defaulting to `0` when the field
is absent (second conjunct), independently of the parsed candles; and on
the concrete input with `data_count = 5` and no `ohlc_data` it returns
five as `data_count` with an empty candlestick list (third conjunct). -/
theorem C10_data_count_from_field :
    (∀ (f : Int → String) (data : List (String × PyVal)) (cp tf sd ed : String)
        (n : Int), dictGet data "data_count" = some (.int n) →
      ∀ r, PriceChartData.from_dict f data cp tf sd ed = Except.ok r →
        r.data_count = n) ∧
    (∀ (f : Int → String) (data : List (String × PyVal)) (cp tf sd ed : String),
      dictGet data "data_count" = Option.none →
      ∀ r, PriceChartData.from_dict f data cp tf sd ed = Except.ok r →
        r.data_count = 0) ∧
    (∀ f : Int → String,
      PriceChartData.from_dict f [("data_count", .int 5)] "btc_jpy" "60" "s" "e" =
        Except.ok ⟨"btc_jpy", "1時間足", "s", "e", [], 5⟩ ∧
      ¬((5 : Int)) = (([] : List CandlestickData).length : Int)) := by
  refine ⟨?_, ?_, fun f => ⟨rfl, by decide⟩⟩
  · intro f data cp tf sd ed n hdc r hok
    unfold PriceChartData.from_dict at hok
    rw [show dictGetD data "data_count" (.int 0) = .int n by
      rw [dictGetD, hdc]; rfl] at hok
    cases hraw : pyListElems (dictGetD data "ohlc_data" (.list [])) with
    | error e =>
        rw [hraw] at hok
        exact Except.noConfusion (show Except.error e = Except.ok r from hok)
    | ok raw =>
        rw [hraw, except_bind_ok] at hok
        cases hcs : CandlestickData.parseItems f raw with
        | error e =>
            rw [hcs] at hok
            exact Except.noConfusion (show Except.error e = Except.ok r from hok)
        | ok cs =>
            rw [hcs, except_bind_ok] at hok
            simp [pyInt, except_bind_ok] at hok
            rw [← hok]
  · intro f data cp tf sd ed hdc r hok
    unfold PriceChartData.from_dict at hok
    rw [show dictGetD data "data_count" (.int 0) = .int 0 by
      rw [dictGetD, hdc]; rfl] at hok
    cases hraw : pyListElems (dictGetD data "ohlc_data" (.list [])) with
    | error e =>
        rw [hraw] at hok
        exact Except.noConfusion (show Except.error e = Except.ok r from hok)
    | ok raw =>
        rw [hraw, except_bind_ok] at hok
        cases hcs : CandlestickData.parseItems f raw with
        | error e =>
            rw [hcs] at hok
            exact Except.noConfusion (show Except.error e = Except.ok r from hok)
        | ok cs =>
            rw [hcs, except_bind_ok] at hok
            simp [pyInt, except_bind_ok] at hok
            rw [← hok]

/-- C10, witness: the first conjunct at a concrete response carrying
`data_count = 7` and no candles. -/
theorem C10_data_count_witness :
    dictGet [("data_count", PyVal.int 7)] "data_count" = some (.int 7) ∧
    (⟨"btc_jpy", "1時間足", "s", "e", [], 7⟩ : PriceChartData).data_count = 7 :=
  ⟨by decide, C10_data_count_from_field.1 (fun _ => "") [("data_count", .int 7)]
    "btc_jpy" "60" "s" "e" 7 (by decide)
    ⟨"btc_jpy", "1時間足", "s", "e", [], 7⟩ (by decide)⟩
